import Mathlib

/-!
Shallow embedding of the hazardflow CPU speculative front end: the
branch-predictor leaves (SatCounter, Bht, Btb), the execute-stage branch
resolution (`get_redirect`, `ExeR.new`, `gen_payload` from exe.rs), and the
fetch-stage sequencing closures (next-PC calculation, predictor step, and
redirect-drop logic from fetch.rs).  Machine integers (`u32`) are modelled
as `Nat` with wrapping addition modulo `2 ^ 32`; fixed-capacity hardware
arrays are modelled as lists whose length is the table capacity.
-/

namespace HazardFlow

/-- Wrapping 32-bit addition, the semantics of `+` on Rust `u32` values in
the hardware design. -/
def wadd32 (x y : Nat) : Nat := (x + y) % 2 ^ 32

/-- Saturation counter with four states (bht.rs, `SatCounter`).  The Rust
default is `WeaklyNotTaken`. -/
inductive SatCounter where
  | stronglyNotTaken
  | weaklyNotTaken
  | weaklyTaken
  | stronglyTaken
deriving DecidableEq, Repr

instance : Inhabited SatCounter := ⟨.weaklyNotTaken⟩

namespace SatCounter

/-- Increments the counter (bht.rs, `SatCounter::increment`). -/
def increment : SatCounter → SatCounter
  | stronglyNotTaken => weaklyNotTaken
  | weaklyNotTaken => weaklyTaken
  | weaklyTaken => stronglyTaken
  | stronglyTaken => stronglyTaken

/-- Decrements the counter (bht.rs, `SatCounter::decrement`). -/
def decrement : SatCounter → SatCounter
  | stronglyNotTaken => stronglyNotTaken
  | weaklyNotTaken => stronglyNotTaken
  | weaklyTaken => weaklyNotTaken
  | stronglyTaken => weaklyTaken

/-- Predicts whether the branch is taken (bht.rs, `SatCounter::predict`). -/
def predict : SatCounter → Bool
  | stronglyNotTaken | weaklyNotTaken => false
  | weaklyTaken | stronglyTaken => true

/-- Position of the state on the 0..3 scale, used to express that
transitions move by at most one state. -/
def toNat : SatCounter → Nat
  | stronglyNotTaken => 0
  | weaklyNotTaken => 1
  | weaklyTaken => 2
  | stronglyTaken => 3

end SatCounter

/-- Branch history table (bht.rs, `Bht`): a direct-mapped table of
saturating counters.  The Rust field is a fixed-size array of capacity
`BHT_ENTRIES`; here the capacity is `entries.length`. -/
structure Bht where
  entries : List SatCounter
deriving DecidableEq, Repr

namespace Bht

/-- Predicts the direction of a branch instruction with the given PC
(bht.rs, `Bht::predict`). -/
def predict (t : Bht) (pc : Nat) : Bool :=
  let index := pc % t.entries.length
  let counter := t.entries.getD index default
  counter.predict

/-- Returns the updated BHT when a branch resolves at the execute stage
(bht.rs, `Bht::update`). -/
def update (t : Bht) (pc : Nat) (taken : Bool) : Bht :=
  let index := pc % t.entries.length
  let counter := t.entries.getD index default
  let newCounter := if taken then counter.increment else counter.decrement
  ⟨t.entries.set index newCounter⟩

end Bht

/-- Branch target buffer (btb.rs, `Btb`): a direct-mapped table of optional
target addresses of capacity `entries.length` (`BTB_ENTRIES` in Rust). -/
structure Btb where
  entries : List (Option Nat)
deriving DecidableEq, Repr

namespace Btb

/-- Returns the predicted target address of a JALR instruction with the
given PC (btb.rs, `Btb::predict`). -/
def predict (t : Btb) (pc : Nat) : Option Nat :=
  let index := pc % t.entries.length
  t.entries.getD index none

/-- Returns the updated BTB after a target-address misprediction (btb.rs,
`Btb::update`). -/
def update (t : Btb) (pc : Nat) (target : Nat) : Btb :=
  let index := pc % t.entries.length
  ⟨t.entries.set index (some target)⟩

end Btb

/-- Branch predictor update signal sent backward from the execute stage
(`BpUpdate` in the CPU design; variants as constructed in exe.rs). -/
inductive BpUpdate where
  | btb (pc : Nat) (target : Nat)
  | bht (pc : Nat) (taken : Bool)
deriving DecidableEq, Repr

/-- Branch type of a resolving instruction (`BrType`, matched in exe.rs
`get_redirect`). -/
inductive BrType where
  | jal
  | jalr
  | beq
  | bge
  | bgeu
  | bne
  | blt
  | bltu
deriving DecidableEq, Repr

/-- Branch information carried by a decode-stage payload: branch type plus
base register value and immediate offset, with target = base + offset
(spec §3 `BranchKind`; fields as consumed by exe.rs `get_redirect`). -/
structure BrInfo where
  typ : BrType
  base : Nat
  offset : Nat
deriving DecidableEq, Repr

/-- Modelled from the spec: the PreDecoder output (spec §3), produced by
`pre_decode` which is not under src/.  It classifies a raw instruction
word into jump / indirect-jump / conditional-branch plus the immediate
offset; fetch.rs consumes exactly these four fields. -/
structure PreDecode where
  is_jal : Bool
  is_jalr : Bool
  is_branch : Bool
  imm : Nat
deriving DecidableEq, Repr

/-- Modelled from the spec: `BpResult` (spec §3 `PredictionResult`), whose
definition is not under src/.  Fields are those consumed by fetch.rs and
exe.rs: the pre-decode classification, the BHT direction bit, and the
BTB-predicted target address (a plain address, `u32` in Rust). -/
structure BpResult where
  pre_decode : PreDecode
  bht : Bool
  btb : Nat
deriving DecidableEq, Repr

/-- Writeback selector (`WbSel`, matched in exe.rs `gen_resolver`). -/
inductive WbSel where
  | alu
  | mem
  | csr
deriving DecidableEq, Repr

/-- Modelled from the spec: memory access information, opaque to the
execute stage, which only passes it through (`MemInfo` is not under
src/). -/
abbrev MemInfo := Nat

/-- Modelled from the spec: CSR access information, opaque to the execute
stage, which only passes it through (`CsrInfo` is not under src/). -/
abbrev CsrInfo := Nat

/-- Modelled from the spec: a bypassed register value (`Register::new(addr,
data)` as constructed in exe.rs; the definition is not under src/). -/
structure Register where
  addr : Nat
  data : Nat
deriving DecidableEq, Repr

/-- Modelled from the spec: the register-file snapshot carried read-only on
the resolver (spec §4.5); its definition is not under src/ and the execute
stage only passes it through. -/
abbrev Regfile := List Nat

/-- Modelled from the spec: the decode-stage payload `DecEP` (decode.rs is
not under src/), with exactly the fields the execute stage consumes in
exe.rs. -/
structure DecEP where
  br_info : Option BrInfo
  wb_info : Option (Nat × WbSel)
  mem_info : Option MemInfo
  csr_info : Option CsrInfo
  is_illegal : Bool
  pc : Nat
  debug_inst : Nat
  bp_result : BpResult
deriving DecidableEq, Repr

/-- Modelled from the spec: the memory-stage resolver `MemR` (mem.rs is not
under src/), with exactly the fields `ExeR::new` and `gen_payload` consume
in exe.rs. -/
structure MemR where
  bypass_from_mem : Option Register
  bypass_from_wb : Option Register
  redirect : Option Nat
  rf : Regfile
deriving DecidableEq, Repr

/-- Payload from execute stage to memory stage (exe.rs, `ExeEP`). -/
structure ExeEP where
  wb_info : Option (Nat × WbSel)
  alu_out : Nat
  mem_info : Option MemInfo
  csr_info : Option CsrInfo
  is_illegal : Bool
  pc : Nat
  debug_inst : Nat
deriving DecidableEq, Repr

/-- Hazard resolver from execute stage to decode stage (exe.rs, `ExeR`). -/
structure ExeR where
  bypass_from_exe : Option Register
  bypass_from_mem : Option Register
  bypass_from_wb : Option Register
  stall : Option Nat
  redirect : Option Nat
  rf : Regfile
  bp_update : Option BpUpdate
deriving DecidableEq, Repr

namespace ExeR

/-- Creates a new execute resolver (exe.rs, `ExeR::new`).  Note the
redirect field is `memr.redirect.or(redirect)`: the downstream redirect is
kept when both are present. -/
def new (memr : MemR) (bypass : Option Register) (stall : Option Nat)
    (redirect : Option Nat) (bp_update : Option BpUpdate) : ExeR where
  bypass_from_exe := bypass
  bypass_from_mem := memr.bypass_from_mem
  bypass_from_wb := memr.bypass_from_wb
  stall := stall
  redirect := memr.redirect.or redirect
  rf := memr.rf
  bp_update := bp_update

end ExeR

/-- Returns the redirected PC and predictor update based on the given
payload (exe.rs, `get_redirect`). -/
def get_redirect (p : DecEP) (alu_out : Nat) : Option Nat × Option BpUpdate :=
  match p.br_info with
  | none => (none, none)
  | some br_info =>
    let target := wadd32 br_info.base br_info.offset
    let alu_true : Bool := alu_out != 0
    match br_info.typ with
    | .jal => (none, none)
    | .jalr =>
      if target = p.bp_result.btb then
        (none, none)
      else
        let bp_update := BpUpdate.btb p.pc target
        (some target, some bp_update)
    | .beq | .bge | .bgeu =>
      if !alu_true then
        let bp_update := BpUpdate.bht p.pc true
        if p.bp_result.bht then (none, some bp_update)
        else (some target, some bp_update)
      else
        let bp_update := BpUpdate.bht p.pc false
        if p.bp_result.bht then (some (wadd32 p.pc 4), some bp_update)
        else (none, some bp_update)
    | .bne | .blt | .bltu =>
      if alu_true then
        let bp_update := BpUpdate.bht p.pc true
        if p.bp_result.bht then (none, some bp_update)
        else (some target, some bp_update)
      else
        let bp_update := BpUpdate.bht p.pc false
        if p.bp_result.bht then (some (wadd32 p.pc 4), some bp_update)
        else (none, some bp_update)

/-- Generates the payload from execute stage to memory stage (exe.rs,
`gen_payload`). -/
def gen_payload (ip : DecEP) (alu_out : Nat) (memr : MemR) : Option ExeEP :=
  if memr.redirect.isSome then
    none
  else
    some
      { alu_out := alu_out
        wb_info := ip.wb_info
        mem_info := ip.mem_info
        csr_info := ip.csr_info
        is_illegal := ip.is_illegal
        pc := ip.pc
        debug_inst := ip.debug_inst }

/-- Modelled from the spec: an instruction-memory response with its
address (`MemRespWithAddr` is not under src/).  The raw instruction word
is represented by its pre-decoded classification, since the PreDecoder
(also not under src/) is a pure function of the word and fetch.rs consumes
only the classification. -/
structure MemRespWithAddr where
  addr : Nat
  data : PreDecode
deriving DecidableEq, Repr

/-- Payload from fetch stage to decode stage (fetch.rs, `FetEP`). -/
structure FetEP where
  imem_resp : MemRespWithAddr
  bp_result : BpResult
  bp_update : Option BpUpdate
deriving DecidableEq, Repr

/-- Modelled from the spec: the resolver given to the fetch stage (`DecR`,
decode.rs is not under src/), with exactly the fields fetch.rs consumes:
the redirect target and the backward-travelling predictor update. -/
structure DecR where
  redirect : Option Nat
  bp_update : Option BpUpdate
deriving DecidableEq, Repr

/-- Modelled from the spec: the branch predictor `Bp` (spec §4.2; the
`branch_predictor` module root is not under src/): the pair (Bht, Btb). -/
structure Bp where
  bht : Bht
  btb : Btb
deriving DecidableEq, Repr

namespace Bp

/-- Modelled from the spec: `Bp::update` (spec §4.2) dispatches on the
update event tag, applying `Bht::update` or `Btb::update` (both under
src/) to the corresponding sub-table. -/
def update (s : Bp) (u : BpUpdate) : Bp :=
  match u with
  | .bht pc taken => { s with bht := s.bht.update pc taken }
  | .btb pc target => { s with btb := s.btb.update pc target }

/-- Modelled from the spec: `Bp::predict` (spec §4.2/§4.3) combines the
pre-decode classification of the fetched word with the BHT direction
lookup and the BTB target lookup; a missing BTB entry decodes to the
sequential default `pc + 4` (fetch.rs relies on this: a BTB miss makes
`bp_result.btb` equal `current PC + 4`). -/
def predict (s : Bp) (resp : MemRespWithAddr) : BpResult where
  pre_decode := resp.data
  bht := s.bht.predict resp.addr
  btb := (s.btb.predict resp.addr).getD (wadd32 resp.addr 4)

end Bp

/-- Next-PC calculation from the previous fetched payload and the
downstream resolver (fetch.rs, the `filter_map` closure of the `next_pc`
chain). -/
def next_pc_calc (p : Option FetEP) (decr : DecR) : Option (Nat × Option BpUpdate) :=
  match decr.redirect with
  | some target => some (target, decr.bp_update)
  | none =>
    match p with
    | some fet_ep =>
      let current_pc := fet_ep.imem_resp.addr
      let bp_result := fet_ep.bp_result
      let pre_decode := bp_result.pre_decode
      let imm := pre_decode.imm
      if pre_decode.is_jal then
        some (wadd32 current_pc imm, decr.bp_update)
      else if pre_decode.is_jalr then
        some (bp_result.btb, decr.bp_update)
      else if pre_decode.is_branch then
        if bp_result.bht then
          some (wadd32 current_pc imm, decr.bp_update)
        else
          some (wadd32 current_pc 4, decr.bp_update)
      else
        some (wadd32 current_pc 4, decr.bp_update)
    | none => none

/-- Per-cycle predictor step of the fetch stage (fetch.rs, the `fsm_map`
closure): produce this cycle's prediction from the current state `s`, then
compute the next state by applying the fed-back update event if present. -/
def fetch_bp_step (ip : FetEP) (s : Bp) : FetEP × Bp :=
  let bp_result := s.predict ip.imem_resp
  let ep : FetEP :=
    { imem_resp := ip.imem_resp
      bp_result := bp_result
      bp_update := none }
  let s1 :=
    match ip.bp_update with
    | some u => s.update u
    | none => s
  (ep, s1)

/-- Applies an optional update event to the predictor state, as the
`fsm_map` closure of fetch.rs does. -/
def bp_apply (s : Bp) (u : Option BpUpdate) : Bp :=
  match u with
  | some u => s.update u
  | none => s

/-- Multi-cycle run of the fetch-stage predictor step over a sequence of
ingress payloads, threading the state registered by `fsm_map`. -/
def fetch_bp_run (s : Bp) : List FetEP → List FetEP
  | [] => []
  | ip :: rest => (fetch_bp_step ip s).1 :: fetch_bp_run (fetch_bp_step ip s).2 rest

/-- The predictor state after consuming the update events of a list of
ingress payloads. -/
def bp_state_after (s : Bp) (ips : List FetEP) : Bp :=
  ips.foldl (fun st ip => bp_apply st ip.bp_update) s

/-- Ready bit reported toward the fetched-payload register (fetch.rs, the
`map_resolver_drop_with_p` closure): the egress ready, forced true when
the resolver carries a redirect. -/
def fetch_output_ready (ready : Bool) (er : DecR) : Bool :=
  ready || er.redirect.isSome

/-- Egress payload filtering of the fetch stage (fetch.rs, the
`filter_map_drop_with_r_inner` closure): the response is forwarded only
when the resolver carries no redirect. -/
def fetch_output_filter (resp : FetEP) (er : DecR) : Option FetEP :=
  if er.redirect.isNone then some resp else none

/-- C7: SatCounter stays within its four states; `increment` saturates at
StronglyTaken and `decrement` at StronglyNotTaken; transitions move by at
most one state on the 0..3 scale; `predict` is taken iff the state is
WeaklyTaken or StronglyTaken; and after saturating, any number of further
same-direction calls leaves the state and the prediction unchanged. -/
theorem satCounter_behavior :
    SatCounter.stronglyTaken.increment = .stronglyTaken ∧
    SatCounter.stronglyNotTaken.decrement = .stronglyNotTaken ∧
    (∀ s : SatCounter,
      s.toNat ≤ s.increment.toNat ∧ s.increment.toNat ≤ s.toNat + 1 ∧
      s.decrement.toNat ≤ s.toNat ∧ s.toNat ≤ s.decrement.toNat + 1) ∧
    (∀ s : SatCounter, s.predict = true ↔ (s = .weaklyTaken ∨ s = .stronglyTaken)) ∧
    (∀ n : Nat,
      SatCounter.increment^[n] .stronglyTaken = .stronglyTaken ∧
      SatCounter.decrement^[n] .stronglyNotTaken = .stronglyNotTaken ∧
      (SatCounter.increment^[n] .stronglyTaken).predict = true ∧
      (SatCounter.decrement^[n] .stronglyNotTaken).predict = false) := by
  refine ⟨rfl, rfl, ?_, ?_, ?_⟩
  · intro s
    cases s <;> simp [SatCounter.increment, SatCounter.decrement, SatCounter.toNat]
  · intro s
    cases s <;> simp [SatCounter.predict]
  · intro n
    have h1 : SatCounter.increment^[n] .stronglyTaken = .stronglyTaken :=
      Function.iterate_fixed rfl n
    have h2 : SatCounter.decrement^[n] .stronglyNotTaken = .stronglyNotTaken :=
      Function.iterate_fixed rfl n
    exact ⟨h1, h2, by rw [h1]; rfl, by rw [h2]; rfl⟩

/-- Witness for C7 at a concrete iteration count: three further increments
after saturation leave the state StronglyTaken and the prediction
taken. -/
theorem satCounter_behavior_witness :
    SatCounter.increment^[3] .stronglyTaken = .stronglyTaken ∧
    (SatCounter.increment^[3] .stronglyTaken).predict = true :=
  ⟨(satCounter_behavior.2.2.2.2 3).1, (satCounter_behavior.2.2.2.2 3).2.2.1⟩

/-- C8: `Bht.update` and `Btb.update` return a table of the same capacity
in which only the entry at index `pc % capacity` differs: every other
entry is identical to the input table's, and the addressed entry holds the
incremented/decremented counter (resp. `some target`). -/
theorem bht_btb_update_frame (t : Bht) (b : Btb) (pc : Nat) (taken : Bool) (target : Nat) :
    ((t.update pc taken).entries.length = t.entries.length ∧
      (∀ i, i ≠ pc % t.entries.length →
        (t.update pc taken).entries.getD i default = t.entries.getD i default) ∧
      (0 < t.entries.length →
        (t.update pc taken).entries.getD (pc % t.entries.length) default =
          (if taken then (t.entries.getD (pc % t.entries.length) default).increment
            else (t.entries.getD (pc % t.entries.length) default).decrement))) ∧
    ((b.update pc target).entries.length = b.entries.length ∧
      (∀ i, i ≠ pc % b.entries.length →
        (b.update pc target).entries.getD i none = b.entries.getD i none) ∧
      (0 < b.entries.length →
        (b.update pc target).entries.getD (pc % b.entries.length) none = some target)) := by
  refine ⟨⟨by simp [Bht.update], ?_, ?_⟩, by simp [Btb.update], ?_, ?_⟩
  · intro i hi
    simp [Bht.update, List.getD_eq_getElem?_getD, List.getElem?_set_ne (Ne.symm hi)]
  · intro hpos
    have hlt : pc % t.entries.length < t.entries.length := Nat.mod_lt pc hpos
    simp [Bht.update, List.getD_eq_getElem?_getD, List.getElem?_set_self, hlt]
  · intro i hi
    simp [Btb.update, List.getD_eq_getElem?_getD, List.getElem?_set_ne (Ne.symm hi)]
  · intro hpos
    have hlt : pc % b.entries.length < b.entries.length := Nat.mod_lt pc hpos
    simp [Btb.update, List.getD_eq_getElem?_getD, List.getElem?_set_self, hlt]

/-- Witness for C8 on a concrete two-entry BHT and BTB at `pc = 3`
(addressed index `3 % 2 = 1`): the entry at index 0 is untouched and the
addressed entries hold the new values. -/
theorem bht_btb_update_frame_witness :
    ((0 : Nat) ≠ 3 % 2 ∧
      (Bht.update ⟨[.weaklyNotTaken, .stronglyTaken]⟩ 3 true).entries.getD 0 default =
        (⟨[.weaklyNotTaken, .stronglyTaken]⟩ : Bht).entries.getD 0 default) ∧
    (0 < (⟨[.weaklyNotTaken, .stronglyTaken]⟩ : Bht).entries.length ∧
      (Bht.update ⟨[.weaklyNotTaken, .stronglyTaken]⟩ 3 true).entries.getD
          (3 % (⟨[.weaklyNotTaken, .stronglyTaken]⟩ : Bht).entries.length) default =
        (if true then
            ((⟨[.weaklyNotTaken, .stronglyTaken]⟩ : Bht).entries.getD
              (3 % (⟨[.weaklyNotTaken, .stronglyTaken]⟩ : Bht).entries.length) default).increment
          else
            ((⟨[.weaklyNotTaken, .stronglyTaken]⟩ : Bht).entries.getD
              (3 % (⟨[.weaklyNotTaken, .stronglyTaken]⟩ : Bht).entries.length) default).decrement)) ∧
    (0 < (⟨[none, some 7]⟩ : Btb).entries.length ∧
      (Btb.update ⟨[none, some 7]⟩ 3 9).entries.getD
          (3 % (⟨[none, some 7]⟩ : Btb).entries.length) none = some 9) :=
  ⟨⟨by decide,
      (bht_btb_update_frame ⟨[.weaklyNotTaken, .stronglyTaken]⟩ ⟨[none, some 7]⟩ 3 true 9).1.2.1
        0 (by decide)⟩,
    ⟨by decide,
      (bht_btb_update_frame ⟨[.weaklyNotTaken, .stronglyTaken]⟩ ⟨[none, some 7]⟩ 3 true 9).1.2.2
        (by decide)⟩,
    ⟨by decide,
      (bht_btb_update_frame ⟨[.weaklyNotTaken, .stronglyTaken]⟩ ⟨[none, some 7]⟩ 3 true 9).2.2.2
        (by decide)⟩⟩

/-- C9: two distinct PCs sharing an index alias: updating at `pc1` affects
the prediction subsequently read at `pc2` exactly as updating at `pc2`
would, for both the BHT and the BTB. -/
theorem bht_btb_aliasing (t : Bht) (b : Btb) (pc1 pc2 : Nat) (taken : Bool) (target : Nat)
    (hne : pc1 ≠ pc2)
    (ht : pc1 % t.entries.length = pc2 % t.entries.length)
    (hb : pc1 % b.entries.length = pc2 % b.entries.length) :
    (t.update pc1 taken).predict pc2 = (t.update pc2 taken).predict pc2 ∧
    (b.update pc1 target).predict pc2 = (b.update pc2 target).predict pc2 := by
  constructor
  · have h : t.update pc1 taken = t.update pc2 taken := by
      simp only [Bht.update]
      rw [ht]
    rw [h]
  · have h : b.update pc1 target = b.update pc2 target := by
      simp only [Btb.update]
      rw [hb]
    rw [h]

/-- Witness for C9 at `pc1 = 1`, `pc2 = 3` on two-entry tables, where
`1 % 2 = 3 % 2 = 1`. -/
theorem bht_btb_aliasing_witness :
    ((1 : Nat) ≠ 3 ∧
      (1 : Nat) % 2 = 3 % 2) ∧
    (Bht.update ⟨[.weaklyNotTaken, .weaklyNotTaken]⟩ 1 true).predict 3 =
      (Bht.update ⟨[.weaklyNotTaken, .weaklyNotTaken]⟩ 3 true).predict 3 ∧
    (Btb.update ⟨[none, none]⟩ 1 9).predict 3 = (Btb.update ⟨[none, none]⟩ 3 9).predict 3 :=
  ⟨⟨by decide, by decide⟩,
    bht_btb_aliasing ⟨[.weaklyNotTaken, .weaklyNotTaken]⟩ ⟨[none, none]⟩ 1 3 true 9
      (by decide) (by decide) (by decide)⟩

/-- C1: for a conditional-branch payload, the BranchEqOrGE family (Beq,
Bge, Bgeu) resolves taken iff the ALU output is zero and the BranchNeOrLT
family (Bne, Blt, Bltu) resolves taken iff it is nonzero; a redirect is
emitted iff the resolved outcome disagrees with the predicted direction —
to `base + offset` when taken but predicted not-taken, to `pc + 4` when
not-taken but predicted taken, none when they agree — and a Bht-update
event `(pc, resolved direction)` is emitted in all four cases of both
families. -/
theorem get_redirect_cond_branch (p : DecEP) (bi : BrInfo) (alu_out : Nat)
    (hbr : p.br_info = some bi) :
    ((bi.typ = .beq ∨ bi.typ = .bge ∨ bi.typ = .bgeu) →
      (alu_out = 0 → p.bp_result.bht = true →
        get_redirect p alu_out = (none, some (.bht p.pc true))) ∧
      (alu_out = 0 → p.bp_result.bht = false →
        get_redirect p alu_out = (some (wadd32 bi.base bi.offset), some (.bht p.pc true))) ∧
      (alu_out ≠ 0 → p.bp_result.bht = true →
        get_redirect p alu_out = (some (wadd32 p.pc 4), some (.bht p.pc false))) ∧
      (alu_out ≠ 0 → p.bp_result.bht = false →
        get_redirect p alu_out = (none, some (.bht p.pc false)))) ∧
    ((bi.typ = .bne ∨ bi.typ = .blt ∨ bi.typ = .bltu) →
      (alu_out ≠ 0 → p.bp_result.bht = true →
        get_redirect p alu_out = (none, some (.bht p.pc true))) ∧
      (alu_out ≠ 0 → p.bp_result.bht = false →
        get_redirect p alu_out = (some (wadd32 bi.base bi.offset), some (.bht p.pc true))) ∧
      (alu_out = 0 → p.bp_result.bht = true →
        get_redirect p alu_out = (some (wadd32 p.pc 4), some (.bht p.pc false))) ∧
      (alu_out = 0 → p.bp_result.bht = false →
        get_redirect p alu_out = (none, some (.bht p.pc false)))) := by
  constructor <;> intro htyp <;>
    rcases htyp with h | h | h <;>
      refine ⟨?_, ?_, ?_, ?_⟩ <;> intro hz hb <;>
        simp [get_redirect, hbr, h, hz, hb]

/-- Witness for C1: a Beq branch at `pc = 100` resolving taken (ALU output
zero) while predicted not-taken redirects to `base + offset = 30` with a
taken Bht update, and a Bne branch at the same payload shape resolving
not-taken while predicted not-taken emits no redirect and a not-taken
update. -/
theorem get_redirect_cond_branch_witness :
    get_redirect
        ⟨some ⟨.beq, 10, 20⟩, none, none, none, false, 100, 0,
          ⟨⟨false, false, true, 20⟩, false, 0⟩⟩ 0 =
      (some (wadd32 10 20), some (.bht 100 true)) ∧
    get_redirect
        ⟨some ⟨.bne, 10, 20⟩, none, none, none, false, 100, 0,
          ⟨⟨false, false, true, 20⟩, false, 0⟩⟩ 0 =
      (none, some (.bht 100 false)) :=
  ⟨(get_redirect_cond_branch
        ⟨some ⟨.beq, 10, 20⟩, none, none, none, false, 100, 0,
          ⟨⟨false, false, true, 20⟩, false, 0⟩⟩ ⟨.beq, 10, 20⟩ 0 rfl).1
      (Or.inl rfl) |>.2.1 rfl rfl,
    (get_redirect_cond_branch
        ⟨some ⟨.bne, 10, 20⟩, none, none, none, false, 100, 0,
          ⟨⟨false, false, true, 20⟩, false, 0⟩⟩ ⟨.bne, 10, 20⟩ 0 rfl).2
      (Or.inl rfl) |>.2.2.2 rfl rfl⟩

/-- C2: a Jal payload produces no redirect and no update; a Jalr payload
produces no redirect and no update when the predicted target equals the
actual target `base + offset`, and otherwise a redirect to the actual
target together with a Btb-update event `(pc, actual target)`. -/
theorem get_redirect_jump (p : DecEP) (bi : BrInfo) (alu_out : Nat)
    (hbr : p.br_info = some bi) :
    (bi.typ = .jal → get_redirect p alu_out = (none, none)) ∧
    (bi.typ = .jalr →
      (wadd32 bi.base bi.offset = p.bp_result.btb →
        get_redirect p alu_out = (none, none)) ∧
      (wadd32 bi.base bi.offset ≠ p.bp_result.btb →
        get_redirect p alu_out =
          (some (wadd32 bi.base bi.offset), some (.btb p.pc (wadd32 bi.base bi.offset))))) := by
  constructor
  · intro h
    simp [get_redirect, hbr, h]
  · intro h
    constructor <;> intro he <;> simp [get_redirect, hbr, h, he]

/-- Witness for C2: a Jal at `pc = 40` yields no redirect and no update; a
Jalr at `pc = 40` with actual target `wadd32 5 3 = 8` and predicted target
`9` redirects to `8` with a Btb update `(40, 8)`. -/
theorem get_redirect_jump_witness :
    get_redirect
        ⟨some ⟨.jal, 5, 3⟩, none, none, none, false, 40, 0,
          ⟨⟨true, false, false, 3⟩, false, 9⟩⟩ 1 = (none, none) ∧
    get_redirect
        ⟨some ⟨.jalr, 5, 3⟩, none, none, none, false, 40, 0,
          ⟨⟨false, true, false, 3⟩, false, 9⟩⟩ 1 =
      (some (wadd32 5 3), some (.btb 40 (wadd32 5 3))) :=
  ⟨(get_redirect_jump
        ⟨some ⟨.jal, 5, 3⟩, none, none, none, false, 40, 0,
          ⟨⟨true, false, false, 3⟩, false, 9⟩⟩ ⟨.jal, 5, 3⟩ 1 rfl).1 rfl,
    ((get_redirect_jump
        ⟨some ⟨.jalr, 5, 3⟩, none, none, none, false, 40, 0,
          ⟨⟨false, true, false, 3⟩, false, 9⟩⟩ ⟨.jalr, 5, 3⟩ 1 rfl).2 rfl).2 (by decide)⟩

/-- Counterexample to C3 as stated: with a downstream redirect
`memr.redirect = some 8` and a local redirect `some 100`, the composed
resolver's redirect field is `some 8`, not the local `some 100` — the
downstream redirect, not the local one, takes precedence in
`ExeR::new`. -/
theorem exeR_new_local_precedence_counterexample :
    (ExeR.new ⟨none, none, some 8, []⟩ none none (some 100) none).redirect = some 8 ∧
    (ExeR.new ⟨none, none, some 8, []⟩ none none (some 100) none).redirect ≠ some 100 :=
  ⟨rfl, by decide⟩

/-- C3 amended: `ExeR.new` merges with downstream precedence on the
redirect field — the composed redirect is `memr.redirect.or redirect`, so
a same-cycle memory-stage redirect wins over the local one and the local
redirect is used only when the memory stage has none; fields the execute
stage does not originate (`bypass_from_mem`, `bypass_from_wb`, `rf`) are
passed through from `memr` unchanged, and locally originated fields
(`bypass_from_exe`, `stall`, `bp_update`) come from the local
arguments. -/
theorem exeR_new_merge (memr : MemR) (bypass : Option Register) (stall : Option Nat)
    (redirect : Option Nat) (bp_update : Option BpUpdate) :
    (ExeR.new memr bypass stall redirect bp_update).bypass_from_exe = bypass ∧
    (ExeR.new memr bypass stall redirect bp_update).stall = stall ∧
    (ExeR.new memr bypass stall redirect bp_update).bp_update = bp_update ∧
    (ExeR.new memr bypass stall redirect bp_update).bypass_from_mem = memr.bypass_from_mem ∧
    (ExeR.new memr bypass stall redirect bp_update).bypass_from_wb = memr.bypass_from_wb ∧
    (ExeR.new memr bypass stall redirect bp_update).rf = memr.rf ∧
    (ExeR.new memr bypass stall redirect bp_update).redirect = memr.redirect.or redirect ∧
    (∀ t, memr.redirect = some t →
      (ExeR.new memr bypass stall redirect bp_update).redirect = some t) ∧
    (memr.redirect = none →
      (ExeR.new memr bypass stall redirect bp_update).redirect = redirect) := by
  refine ⟨rfl, rfl, rfl, rfl, rfl, rfl, rfl, ?_, ?_⟩
  · intro t h
    simp [ExeR.new, h, Option.or]
  · intro h
    simp [ExeR.new, h, Option.or]

/-- Witness for C3 amended: at a concrete memory resolver carrying
`redirect = some 8`, the composed redirect is `some 8` whatever the local
redirect. -/
theorem exeR_new_merge_witness :
    (⟨none, none, some 8, []⟩ : MemR).redirect = some 8 ∧
    (ExeR.new ⟨none, none, some 8, []⟩ none none (some 100) none).redirect = some 8 :=
  ⟨rfl,
    (exeR_new_merge ⟨none, none, some 8, []⟩ none none (some 100) none).2.2.2.2.2.2.2.1
      8 rfl⟩

/-- C10: the execute stage's egress payload is gated on the downstream
redirect — when the memory resolver's redirect is present, `gen_payload`
returns none (the in-flight instruction is squashed); otherwise it returns
some `ExeEP` copying `wb_info`, `mem_info`, `csr_info`, `is_illegal`,
`pc`, `debug_inst` from the ingress payload and carrying the given ALU
result. -/
theorem gen_payload_squash (ip : DecEP) (alu_out : Nat) (memr : MemR) :
    (memr.redirect.isSome = true → gen_payload ip alu_out memr = none) ∧
    (memr.redirect = none →
      gen_payload ip alu_out memr =
        some
          { alu_out := alu_out
            wb_info := ip.wb_info
            mem_info := ip.mem_info
            csr_info := ip.csr_info
            is_illegal := ip.is_illegal
            pc := ip.pc
            debug_inst := ip.debug_inst }) := by
  constructor <;> intro h <;> simp [gen_payload, h]

/-- Witness for C10: with a concrete redirecting memory resolver the
payload is squashed, and with none it is forwarded with the ingress
fields. -/
theorem gen_payload_squash_witness :
    ((⟨none, none, some 8, []⟩ : MemR).redirect.isSome = true ∧
      gen_payload
          ⟨none, some (1, .alu), some 5, none, false, 100, 7, ⟨⟨false, false, false, 0⟩, false, 0⟩⟩
          42 ⟨none, none, some 8, []⟩ = none) ∧
    ((⟨none, none, none, []⟩ : MemR).redirect = none ∧
      gen_payload
          ⟨none, some (1, .alu), some 5, none, false, 100, 7, ⟨⟨false, false, false, 0⟩, false, 0⟩⟩
          42 ⟨none, none, none, []⟩ =
        some ⟨some (1, .alu), 42, some 5, none, false, 100, 7⟩) :=
  ⟨⟨rfl,
      (gen_payload_squash
          ⟨none, some (1, .alu), some 5, none, false, 100, 7, ⟨⟨false, false, false, 0⟩, false, 0⟩⟩
          42 ⟨none, none, some 8, []⟩).1 rfl⟩,
    ⟨rfl,
      (gen_payload_squash
          ⟨none, some (1, .alu), some 5, none, false, 100, 7, ⟨⟨false, false, false, 0⟩, false, 0⟩⟩
          42 ⟨none, none, none, []⟩).2 rfl⟩⟩

/-- Counterexample to C4 as stated: a one-entry BHT holding WeaklyTaken
receives the fed-back not-taken update `(pc = 0, taken = false)` on the
same cycle a conditional branch at address 0 is predicted.  The attached
PredictionResult reports taken (`bht = true`), computed from the
pre-update state, while the already-updated state would predict not-taken
(`bht = false`): the update is not applied before the prediction. -/
theorem fetch_bp_step_counterexample :
    (fetch_bp_step
          ⟨⟨0, ⟨false, false, true, 8⟩⟩, ⟨⟨false, false, true, 8⟩, false, 0⟩,
            some (.bht 0 false)⟩
          ⟨⟨[.weaklyTaken]⟩, ⟨[none]⟩⟩).1.bp_result.bht = true ∧
    ((Bp.update ⟨⟨[.weaklyTaken]⟩, ⟨[none]⟩⟩ (.bht 0 false)).predict
          ⟨0, ⟨false, false, true, 8⟩⟩).bht = false :=
  ⟨by decide, by decide⟩

/-- Helper: the fetch-stage predictor run produces one egress payload per
ingress payload. -/
theorem fetch_bp_run_length (s : Bp) (ips : List FetEP) :
    (fetch_bp_run s ips).length = ips.length := by
  induction ips generalizing s with
  | nil => rfl
  | cons ip rest ih => simp [fetch_bp_run, ih]

/-- C4 amended: the fetch stage computes each cycle's PredictionResult
from the pre-update predictor state and applies the fed-back update event
afterwards; over a run, the prediction attached to the n-th payload is
computed from the state updated by the events of payloads 0..n-1 only, so
an arriving update takes effect from the next cycle's prediction
onward. -/
theorem fetch_bp_run_pre_update (s : Bp) (ips : List FetEP) (n : Nat) (d : FetEP)
    (h : n < ips.length) :
    (fetch_bp_run s ips).getD n d =
      { imem_resp := (ips.getD n d).imem_resp
        bp_result := (bp_state_after s (ips.take n)).predict (ips.getD n d).imem_resp
        bp_update := none } := by
  induction ips generalizing s n with
  | nil => simp at h
  | cons ip rest ih =>
    cases n with
    | zero =>
      rfl
    | succ m =>
      have hm : m < rest.length := Nat.lt_of_succ_lt_succ (by simpa using h)
      rw [show fetch_bp_run s (ip :: rest) =
            (fetch_bp_step ip s).1 :: fetch_bp_run (fetch_bp_step ip s).2 rest from rfl,
        List.getD_cons_succ, List.getD_cons_succ, List.take_succ_cons]
      exact ih (fetch_bp_step ip s).2 m hm

/-- Witness for C4 amended: a two-payload run on a one-entry predictor
where the first payload carries a taken update at `pc = 0`; the second
payload's attached prediction is computed from the once-updated state. -/
theorem fetch_bp_run_pre_update_witness :
    1 <
      ([⟨⟨0, ⟨false, false, true, 8⟩⟩, ⟨⟨false, false, true, 8⟩, false, 0⟩, some (.bht 0 true)⟩,
          ⟨⟨0, ⟨false, false, true, 8⟩⟩, ⟨⟨false, false, true, 8⟩, false, 0⟩, none⟩] :
        List FetEP).length ∧
    (fetch_bp_run ⟨⟨[.weaklyNotTaken]⟩, ⟨[none]⟩⟩
          [⟨⟨0, ⟨false, false, true, 8⟩⟩, ⟨⟨false, false, true, 8⟩, false, 0⟩, some (.bht 0 true)⟩,
            ⟨⟨0, ⟨false, false, true, 8⟩⟩, ⟨⟨false, false, true, 8⟩, false, 0⟩, none⟩]).getD 1
        ⟨⟨0, ⟨false, false, true, 8⟩⟩, ⟨⟨false, false, true, 8⟩, false, 0⟩, none⟩ =
      { imem_resp :=
          (([⟨⟨0, ⟨false, false, true, 8⟩⟩, ⟨⟨false, false, true, 8⟩, false, 0⟩,
                some (.bht 0 true)⟩,
              ⟨⟨0, ⟨false, false, true, 8⟩⟩, ⟨⟨false, false, true, 8⟩, false, 0⟩, none⟩] :
            List FetEP).getD 1
            ⟨⟨0, ⟨false, false, true, 8⟩⟩, ⟨⟨false, false, true, 8⟩, false, 0⟩, none⟩).imem_resp
        bp_result :=
          (bp_state_after ⟨⟨[.weaklyNotTaken]⟩, ⟨[none]⟩⟩
              (([⟨⟨0, ⟨false, false, true, 8⟩⟩, ⟨⟨false, false, true, 8⟩, false, 0⟩,
                    some (.bht 0 true)⟩,
                  ⟨⟨0, ⟨false, false, true, 8⟩⟩, ⟨⟨false, false, true, 8⟩, false, 0⟩, none⟩] :
                List FetEP).take 1)).predict
            (([⟨⟨0, ⟨false, false, true, 8⟩⟩, ⟨⟨false, false, true, 8⟩, false, 0⟩,
                  some (.bht 0 true)⟩,
                ⟨⟨0, ⟨false, false, true, 8⟩⟩, ⟨⟨false, false, true, 8⟩, false, 0⟩, none⟩] :
              List FetEP).getD 1
              ⟨⟨0, ⟨false, false, true, 8⟩⟩, ⟨⟨false, false, true, 8⟩, false, 0⟩, none⟩).imem_resp
        bp_update := none } :=
  ⟨by decide,
    fetch_bp_run_pre_update ⟨⟨[.weaklyNotTaken]⟩, ⟨[none]⟩⟩
      [⟨⟨0, ⟨false, false, true, 8⟩⟩, ⟨⟨false, false, true, 8⟩, false, 0⟩, some (.bht 0 true)⟩,
        ⟨⟨0, ⟨false, false, true, 8⟩⟩, ⟨⟨false, false, true, 8⟩, false, 0⟩, none⟩]
      1 ⟨⟨0, ⟨false, false, true, 8⟩⟩, ⟨⟨false, false, true, 8⟩, false, 0⟩, none⟩ (by decide)⟩

/-- C5: the fetch stage's next-PC selection — a downstream redirect wins
unconditionally; otherwise, from the previous fetched payload's
PredictionResult, a pre-decoded Jal gives `current_pc + imm`; a
pre-decoded Jalr gives the BTB-predicted target carried in
`bp_result.btb`, which under the predictor's lookup is the BTB entry when
present and falls back to `current_pc + 4` when the BTB held no entry; a
pre-decoded conditional branch gives `current_pc + imm` when the BHT bit
predicts taken and `current_pc + 4` otherwise; any other instruction gives
`current_pc + 4`. -/
theorem next_pc_selection (p : Option FetEP) (decr : DecR) (fep : FetEP) (s : Bp) :
    (∀ t, decr.redirect = some t → next_pc_calc p decr = some (t, decr.bp_update)) ∧
    (decr.redirect = none → p = some fep →
      (fep.bp_result.pre_decode.is_jal = true →
        next_pc_calc p decr =
          some (wadd32 fep.imem_resp.addr fep.bp_result.pre_decode.imm, decr.bp_update)) ∧
      (fep.bp_result.pre_decode.is_jal = false → fep.bp_result.pre_decode.is_jalr = true →
        next_pc_calc p decr = some (fep.bp_result.btb, decr.bp_update) ∧
        (fep.bp_result = s.predict fep.imem_resp →
          (s.btb.predict fep.imem_resp.addr = none →
            next_pc_calc p decr = some (wadd32 fep.imem_resp.addr 4, decr.bp_update)) ∧
          (∀ tgt, s.btb.predict fep.imem_resp.addr = some tgt →
            next_pc_calc p decr = some (tgt, decr.bp_update)))) ∧
      (fep.bp_result.pre_decode.is_jal = false → fep.bp_result.pre_decode.is_jalr = false →
        fep.bp_result.pre_decode.is_branch = true →
        (fep.bp_result.bht = true →
          next_pc_calc p decr =
            some (wadd32 fep.imem_resp.addr fep.bp_result.pre_decode.imm, decr.bp_update)) ∧
        (fep.bp_result.bht = false →
          next_pc_calc p decr = some (wadd32 fep.imem_resp.addr 4, decr.bp_update))) ∧
      (fep.bp_result.pre_decode.is_jal = false → fep.bp_result.pre_decode.is_jalr = false →
        fep.bp_result.pre_decode.is_branch = false →
        next_pc_calc p decr = some (wadd32 fep.imem_resp.addr 4, decr.bp_update))) := by
  constructor
  · intro t h
    simp [next_pc_calc, h]
  · intro hred hp
    subst hp
    refine ⟨?_, ?_, ?_, ?_⟩
    · intro hj
      simp [next_pc_calc, hred, hj]
    · intro hj hjr
      constructor
      · simp [next_pc_calc, hred, hj, hjr]
      · intro hbp
        constructor
        · intro hnone
          have hbtb : fep.bp_result.btb = wadd32 fep.imem_resp.addr 4 := by
            rw [hbp]
            simp [Bp.predict, hnone]
          simp [next_pc_calc, hred, hj, hjr, hbtb]
        · intro tgt hsome
          have hbtb : fep.bp_result.btb = tgt := by
            rw [hbp]
            simp [Bp.predict, hsome]
          simp [next_pc_calc, hred, hj, hjr, hbtb]
    · intro hj hjr hb
      constructor <;> intro hbht <;> simp [next_pc_calc, hred, hj, hjr, hb, hbht]
    · intro hj hjr hb
      simp [next_pc_calc, hred, hj, hjr, hb]

/-- Witness for C5: a redirect to 8 wins over a pending payload, and a
Jalr fetched at address 12 whose prediction came from an empty one-entry
BTB falls back to the sequential `wadd32 12 4`. -/
theorem next_pc_selection_witness :
    ((⟨some 8, none⟩ : DecR).redirect = some 8 ∧
      next_pc_calc
          (some ⟨⟨12, ⟨false, true, false, 0⟩⟩,
            Bp.predict ⟨⟨[.weaklyNotTaken]⟩, ⟨[none]⟩⟩ ⟨12, ⟨false, true, false, 0⟩⟩, none⟩)
          ⟨some 8, none⟩ = some (8, none)) ∧
    ((⟨[none]⟩ : Btb).predict 12 = none ∧
      next_pc_calc
          (some ⟨⟨12, ⟨false, true, false, 0⟩⟩,
            Bp.predict ⟨⟨[.weaklyNotTaken]⟩, ⟨[none]⟩⟩ ⟨12, ⟨false, true, false, 0⟩⟩, none⟩)
          ⟨none, none⟩ = some (wadd32 12 4, none)) := by
  refine ⟨⟨rfl, ?_⟩, by decide, ?_⟩
  · exact
      (next_pc_selection
          (some ⟨⟨12, ⟨false, true, false, 0⟩⟩,
            Bp.predict ⟨⟨[.weaklyNotTaken]⟩, ⟨[none]⟩⟩ ⟨12, ⟨false, true, false, 0⟩⟩, none⟩)
          ⟨some 8, none⟩
          ⟨⟨12, ⟨false, true, false, 0⟩⟩,
            Bp.predict ⟨⟨[.weaklyNotTaken]⟩, ⟨[none]⟩⟩ ⟨12, ⟨false, true, false, 0⟩⟩, none⟩
          ⟨⟨[.weaklyNotTaken]⟩, ⟨[none]⟩⟩).1 8 rfl
  · exact
      ((((next_pc_selection
            (some ⟨⟨12, ⟨false, true, false, 0⟩⟩,
              Bp.predict ⟨⟨[.weaklyNotTaken]⟩, ⟨[none]⟩⟩ ⟨12, ⟨false, true, false, 0⟩⟩, none⟩)
            ⟨none, none⟩
            ⟨⟨12, ⟨false, true, false, 0⟩⟩,
              Bp.predict ⟨⟨[.weaklyNotTaken]⟩, ⟨[none]⟩⟩ ⟨12, ⟨false, true, false, 0⟩⟩, none⟩
            ⟨⟨[.weaklyNotTaken]⟩, ⟨[none]⟩⟩).2 rfl rfl).2.1 rfl rfl).2 rfl).1 (by decide)

/-- C6: on a cycle whose resolver carries a redirect, the fetch stage's
egress payload is dropped (`fetch_output_filter` yields none) and the
ready signal toward the fetched-payload register is forced true
(`fetch_output_ready` is true even when the egress ready is false), so the
pending result is reported as already consumed. -/
theorem fetch_redirect_drop (resp : FetEP) (ready : Bool) (er : DecR) (t : Nat)
    (h : er.redirect = some t) :
    fetch_output_filter resp er = none ∧ fetch_output_ready ready er = true := by
  constructor
  · simp [fetch_output_filter, h]
  · simp [fetch_output_ready, h]

/-- Witness for C6: with a redirect to 8 and a not-ready consumer, the
concrete pending payload is dropped and the ready bit reads true. -/
theorem fetch_redirect_drop_witness :
    (⟨some 8, none⟩ : DecR).redirect = some 8 ∧
    fetch_output_filter
        ⟨⟨0, ⟨false, false, false, 0⟩⟩, ⟨⟨false, false, false, 0⟩, false, 0⟩, none⟩
        ⟨some 8, none⟩ = none ∧
    fetch_output_ready false ⟨some 8, none⟩ = true :=
  ⟨rfl,
    (fetch_redirect_drop
        ⟨⟨0, ⟨false, false, false, 0⟩⟩, ⟨⟨false, false, false, 0⟩, false, 0⟩, none⟩
        false ⟨some 8, none⟩ 8 rfl).1,
    (fetch_redirect_drop
        ⟨⟨0, ⟨false, false, false, 0⟩⟩, ⟨⟨false, false, false, 0⟩, false, 0⟩, none⟩
        false ⟨some 8, none⟩ 8 rfl).2⟩

end HazardFlow
